import Mathlib

/-!
Verification of the renewal/invoice derivation and reminder subsystem of the
vasifyCrm backend.

The JavaScript sources embedded here:
 * src/utils/helpers.js        (calculateDaysUntilExpiry, generateInvoiceNumber)
 * src/routes/renewals.js      (toSqlDate, addMonths, buildRenewalFromCustomer)
 * src/routes/invoices.js      (buildInvoiceFromCustomer, the POST / transaction,
                                the POST /send-renewal-reminders sweep)
 * src/routes/customers.js     (createAutoInvoice, the customer POST route)
 * src/README.md               (scheduler: sendRenewalReminders, updateRenewalStatuses)

Modelling conventions:
 * JavaScript numbers are modelled as rationals (the claims only involve
   arithmetic that is exact).
 * A JavaScript value that may be null/undefined is an Option.
 * A date-like request field is a DateInput: absent (falsy), valid (parses to a
   calendar date), or malformed (truthy but unparseable, i.e. new Date(x) is
   Invalid Date).
 * Calendar dates are Ymd records; timestamps are integer milliseconds since
   the Unix epoch.  daysFromCivil / civilFromDays implement the Gregorian
   day-number conversion that the JavaScript Date object performs internally.
-/

namespace VasifyCrm

/-- Calendar date (year-month-day), the normalized Y-M-D value the code stores
in DATE columns. -/
structure Ymd where
  year : Nat
  month : Nat
  day : Nat
deriving DecidableEq, Repr

/-- Gregorian leap-year rule, as implemented by the JavaScript Date object. -/
def isLeap (y : Nat) : Bool := y % 4 == 0 && (y % 100 != 0 || y % 400 == 0)

/-- Number of days in a month of a given year (Gregorian). -/
def daysInMonth (y m : Nat) : Nat :=
  if m == 2 then (if isLeap y then 29 else 28)
  else if m == 4 || m == 6 || m == 9 || m == 11 then 30
  else 31

/-- Days since 1970-01-01 of a calendar date (civil-from-days algorithm,
matching the JavaScript Date internal day arithmetic). -/
def daysFromCivil (d : Ymd) : Int :=
  let y : Int := if d.month ≤ 2 then (d.year : Int) - 1 else (d.year : Int)
  let m : Int := d.month
  let era : Int := (if 0 ≤ y then y else y - 399) / 400
  let yoe : Int := y - era * 400
  let doy : Int := (153 * (if m > 2 then m - 3 else m + 9) + 2) / 5 + (d.day : Int) - 1
  let doe : Int := yoe * 365 + yoe / 4 - yoe / 100 + doy
  era * 146097 + doe - 719468

/-- Calendar date of a day number (inverse of daysFromCivil). -/
def civilFromDays (z0 : Int) : Ymd :=
  let z : Int := z0 + 719468
  let era : Int := (if 0 ≤ z then z else z - 146096) / 146097
  let doe : Int := z - era * 146097
  let yoe : Int := (doe - doe / 1460 + doe / 36524 - doe / 146096) / 365
  let y : Int := yoe + era * 400
  let doy : Int := doe - (365 * yoe + yoe / 4 - yoe / 100)
  let mp : Int := (5 * doy + 2) / 153
  let dd : Int := doy - (153 * mp + 2) / 5 + 1
  let m : Int := if mp < 10 then mp + 3 else mp - 9
  ⟨(if m ≤ 2 then y + 1 else y).toNat, m.toNat, dd.toNat⟩

/-- Milliseconds per day, the constant 1000*60*60*24 used by the code. -/
def msPerDay : Int := 86400000

/-- Math.ceil of the real quotient a / b for integers (b positive), as used by
the JavaScript expression Math.ceil(diffTime / msPerDay).  Lean integer
division is floor division, so the ceiling is -((-a) / b). -/
def jsCeilDiv (a b : Int) : Int := -((-a) / b)

/-- Calendar day number of a millisecond timestamp: the date part of
Date.prototype.toISOString (and of CURDATE()). -/
def dayOfMs (t : Int) : Int := t / msPerDay

/-- Calendar date of "today" for a given clock value, i.e. the value of
new Date().toISOString().slice(0, 10). -/
def todayYmd (nowMs : Int) : Ymd := civilFromDays (dayOfMs nowMs)

/-- Millisecond timestamp of midnight UTC of a calendar date, the value
new Date("YYYY-MM-DD") parses to. -/
def msOfYmd (d : Ymd) : Int := daysFromCivil d * msPerDay

/-- Outcome of handing a request's date-like field to new Date(.): the field is
absent (falsy), parses to a calendar date, or is truthy but unparseable. -/
inductive DateInput where
  | absent
  | valid (d : Ymd)
  | malformed
deriving DecidableEq, Repr

/-- Truthiness of a date-like request field: only an absent (null/undefined/
empty) value is falsy; a malformed string is still truthy. -/
def jsTruthyDate : DateInput → Bool
  | .absent => false
  | _ => true

/-- Embeds toSqlDate (src/routes/renewals.js lines 17-25, identical copy in
src/routes/invoices.js lines 15-23): falsy input gives null, an unparseable
input gives null (Number.isNaN(d.getTime())), otherwise the normalized
Y-M-D value. -/
def toSqlDate : DateInput → Option Ymd
  | .absent => none
  | .valid d => some d
  | .malformed => none

/-- Truthiness of a nullable string: null/undefined and the empty string are
falsy. -/
def jsTruthyStr : Option String → Bool
  | none => false
  | some s => !(s == "")

/-- Embeds the JavaScript expression (s || dflt) for a nullable string s. -/
def jsOrStr (s : Option String) (dflt : String) : String :=
  if jsTruthyStr s then s.getD "" else dflt

/-- Millisecond value of new Date(v) where v is a Y-M-D string or null: null
coerces to the number 0, so new Date(null) is the epoch. -/
def msOfSqlDate : Option Ymd → Int
  | none => 0
  | some d => msOfYmd d

/-- Embeds calculateDaysUntilExpiry (src/utils/helpers.js lines 20-26):
Math.ceil((new Date(expiryDate) - new Date()) / (1000*60*60*24)), with the
current clock value passed explicitly. -/
def calculateDaysUntilExpiry (nowMs : Int) (expiryDate : Option Ymd) : Int :=
  jsCeilDiv (msOfSqlDate expiryDate - nowMs) msPerDay

/-- Embeds addMonths (src/routes/renewals.js lines 60-69) on a valid parsed
date.  The JavaScript sequence d.setMonth(d.getMonth() + months) followed by
the d.getDate() < day check and d.setDate(0) clamps to the last day of the
target month whenever the original day-of-month does not exist there:
setMonth first spills day - daysInMonth(target) days into the following month
(making getDate() smaller than day exactly in the overflow case, since the
spill is at most 3), and setDate(0) then moves to the last day of the target
month. -/
def addMonths (d : Ymd) (months : Nat) : Ymd :=
  let t := d.month - 1 + months
  let y := d.year + t / 12
  let m := t % 12 + 1
  if d.day ≤ daysInMonth y m then ⟨y, m, d.day⟩ else ⟨y, m, daysInMonth y m⟩

/-- Embeds the JavaScript sequence d.setDate(d.getDate() + n): day-level
arithmetic with full calendar normalization. -/
def addDays (d : Ymd) (n : Int) : Ymd := civilFromDays (daysFromCivil d + n)

/-- Customer row fields read by the renewal/invoice builders (src schema). -/
structure Customer where
  created_at : Option Ymd
  recurring_interval : Option String
  recurring_amount : Option ℚ
  recurring_service : Option String
  service : Option String
  one_time_price : Option ℚ
  monthly_price : Option ℚ
  total_value : Option ℚ
  default_renewal_status : Option String
  default_renewal_reminder_days : Option Int
  default_renewal_notes : Option String
  default_tax_rate : Option ℚ
  default_due_days : Option Int
  default_invoice_notes : Option String
deriving DecidableEq

/-- Request body fields consumed by buildRenewalFromCustomer. -/
structure RenewalBody where
  service : Option String
  amount : Option ℚ
  expiryDate : DateInput
  status : Option String
  reminderDays : Option Int
  notes : Option String
deriving DecidableEq

/-- Fully-resolved renewal candidate returned by buildRenewalFromCustomer. -/
structure RenewalCandidate where
  service : String
  amount : ℚ
  expiryDate : Option Ymd
  status : String
  reminderDays : Int
  notes : Option String
deriving DecidableEq

/-- Embeds buildRenewalFromCustomer (src/routes/renewals.js lines 72-145),
with the wall clock passed explicitly as nowMs.  Field by field:
service uses nullish coalescing (??), amount and reminderDays test for
undefined, expiryDate tests truthiness and falls back to
addMonths(created_at || today, interval), and status is first resolved as
(status || customer.default_renewal_status || "active") and then, whenever
the request supplied no truthy status, unconditionally reassigned from
calculateDaysUntilExpiry(finalExpiry). -/
def buildRenewalFromCustomer (nowMs : Int) (customer : Customer) (b : RenewalBody) :
    RenewalCandidate :=
  let finalService : String :=
    ((b.service <|> customer.recurring_service) <|> customer.service).getD "Service"
  let finalAmount : ℚ :=
    match b.amount with
    | some a => a
    | none => customer.recurring_amount.getD 0
  let finalExpiry : Option Ymd :=
    if jsTruthyDate b.expiryDate then
      toSqlDate b.expiryDate
    else
      let base : Ymd := customer.created_at.getD (todayYmd nowMs)
      let interval : String := jsOrStr customer.recurring_interval "monthly"
      let monthsToAdd : Nat := if interval == "yearly" then 12 else 1
      -- addMonths on a valid base yields a well-formed Y-M-D string, which
      -- toSqlDate maps to itself.
      some (addMonths base monthsToAdd)
  let finalStatus : String :=
    if jsTruthyStr b.status then b.status.getD ""
    else jsOrStr customer.default_renewal_status "active"
  let finalStatus : String :=
    if !(jsTruthyStr b.status) then
      let days := calculateDaysUntilExpiry nowMs finalExpiry
      if days < 0 then "expired"
      else if days ≤ 7 then "expiring"
      else "active"
    else finalStatus
  let finalReminderDays : Int :=
    match b.reminderDays with
    | some r => r
    | none => customer.default_renewal_reminder_days.getD 30
  let finalNotes : Option String := b.notes <|> customer.default_renewal_notes
  { service := finalService
    amount := finalAmount
    expiryDate := finalExpiry
    status := finalStatus
    reminderDays := finalReminderDays
    notes := finalNotes }

/-- Request body fields consumed by buildInvoiceFromCustomer.  The items field
is Some when the request supplied an array (Array.isArray), carrying the
amounts of the line items. -/
structure InvoiceBody where
  amount : Option ℚ
  tax : Option ℚ
  total : Option ℚ
  status : Option String
  issueDate : DateInput
  dueDate : DateInput
  notes : Option String
  items : Option (List ℚ)
deriving DecidableEq

/-- Fully-resolved invoice candidate returned by buildInvoiceFromCustomer. -/
structure InvoiceCandidate where
  amount : ℚ
  tax : ℚ
  total : ℚ
  status : String
  issueDate : Option Ymd
  dueDate : Option Ymd
  notes : Option String
deriving DecidableEq

/-- Embeds buildInvoiceFromCustomer (src/routes/invoices.js lines 46-83), with
the wall clock passed explicitly as nowMs.  Notes on the numeric coercions:
Number(derivedAmount || 0) equals derivedAmount when defined and 0 otherwise
(0 || 0 is still 0), and defaultTaxRate || 0 is value-identical to
defaultTaxRate for a number.  The due-date fallback uses new Date() (today),
not the resolved issue date. -/
def buildInvoiceFromCustomer (nowMs : Int) (customer : Customer) (b : InvoiceBody) :
    InvoiceCandidate :=
  let derivedAmount : Option ℚ :=
    match b.amount with
    | some a => some a
    | none => b.items.map (fun its => its.foldl (fun s x => s + x) 0)
  let defaultTaxRate : ℚ := customer.default_tax_rate.getD 0
  let finalAmount : ℚ := derivedAmount.getD 0
  let finalTax : ℚ :=
    match b.tax with
    | some t => t
    | none => defaultTaxRate
  let finalTotal : ℚ :=
    match b.total with
    | some t => t
    | none => finalAmount + finalAmount * finalTax / 100
  let finalIssueDate : Option Ymd :=
    if jsTruthyDate b.issueDate then toSqlDate b.issueDate
    else some (todayYmd nowMs)
  let finalDueDate : Option Ymd :=
    if jsTruthyDate b.dueDate then toSqlDate b.dueDate
    else
      let dueDays : Int := customer.default_due_days.getD 7
      some (addDays (todayYmd nowMs) dueDays)
  let finalStatus : String := jsOrStr b.status "draft"
  let finalNotes : Option String := b.notes <|> customer.default_invoice_notes
  { amount := finalAmount
    tax := finalTax
    total := finalTotal
    status := finalStatus
    issueDate := finalIssueDate
    dueDate := finalDueDate
    notes := finalNotes }

/-- Renewal-reminder row joined with its customer, as fetched by the reminder
sweep (src/routes/invoices.js lines 1710-1720).  reminder_days is the parsed
JSON array, expiry is the millisecond value of the expiry_date column, and
lastReminderSent is the calendar day number of last_reminder_sent. -/
structure Reminder where
  id : Nat
  status : String
  customerWhatsapp : String
  reminderDays : List Int
  expiry : Int
  lastReminderSent : Option Int
deriving DecidableEq

/-- Eligibility filter of the sweep's SQL query: status = 'active' and the
joined customer's whatsapp_number is non-null and non-empty. -/
def reminderEligible (r : Reminder) : Bool :=
  r.status == "active" && !(r.customerWhatsapp == "")

/-- Day count of src/routes/invoices.js line 1730:
Math.ceil((expiryDate - today) / (1000 * 60 * 60 * 24)). -/
def daysUntilExpiryMs (nowMs expiry : Int) : Int := jsCeilDiv (expiry - nowMs) msPerDay

/-- Dispatch decision of one loop iteration (src/routes/invoices.js lines
1727-1737): proceed only when reminderDays.includes(daysUntilExpiry) and
last_reminder_sent does not fall on today's date. -/
def reminderShouldSend (nowMs : Int) (r : Reminder) : Bool :=
  r.reminderDays.contains (daysUntilExpiryMs nowMs r.expiry)
  && !(r.lastReminderSent == some (dayOfMs nowMs))

/-- Effect of one loop iteration of the reminder sweep on one fetched row
(src/routes/invoices.js lines 1727-1763): when the dispatch decision holds, a
message is sent and last_reminder_sent is set to CURDATE(); the Bool records
whether a message was dispatched for this row. -/
def processReminder (nowMs : Int) (r : Reminder) : Reminder × Bool :=
  if reminderShouldSend nowMs r then
    ({ r with lastReminderSent := some (dayOfMs nowMs) }, true)
  else (r, false)

/-- One sweep step over an arbitrary table row: rows not selected by the SQL
filter are untouched. -/
def sweepReminder (nowMs : Int) (r : Reminder) : Reminder × Bool :=
  if reminderEligible r then processReminder nowMs r else (r, false)

/-- Embeds one run of the reminder sweep (POST /send-renewal-reminders,
src/routes/invoices.js lines 1708-1773, identical to sendRenewalReminders in
src/README.md lines 357-419) over the reminder table: returns the updated
table and the sentCount reported to the caller. -/
def runReminderSweep (nowMs : Int) : List Reminder → List Reminder × Nat
  | [] => ([], 0)
  | r :: rest =>
    ((sweepReminder nowMs r).1 :: (runReminderSweep nowMs rest).1,
      (if (sweepReminder nowMs r).2 then 1 else 0) + (runReminderSweep nowMs rest).2)

/-- Renewal row fields read by the daily status sweep; expiryDay is the
calendar day number of the expiry_date column. -/
structure RenewalRow where
  id : Nat
  expiryDay : Int
  status : String
deriving DecidableEq

/-- First bulk UPDATE of updateRenewalStatuses (src/README.md lines 426-430):
set status = 'expired' where expiry_date < CURDATE() and status != 'expired'. -/
def sweepExpired (today : Int) (r : RenewalRow) : RenewalRow :=
  if r.expiryDay < today && !(r.status == "expired") then
    { r with status := "expired" }
  else r

/-- Second bulk UPDATE of updateRenewalStatuses (src/README.md lines 432-437):
set status = 'expiring' where expiry_date is between CURDATE() and
CURDATE() + 30 days and status = 'active'. -/
def sweepExpiring (today : Int) (r : RenewalRow) : RenewalRow :=
  if (today ≤ r.expiryDay && r.expiryDay ≤ today + 30) && r.status == "active" then
    { r with status := "expiring" }
  else r

/-- Embeds one run of updateRenewalStatuses (src/README.md lines 422-443): the
expired UPDATE executes first, then the expiring UPDATE, each applied to every
row of the renewals table. -/
def updateRenewalStatuses (today : Int) (rows : List RenewalRow) : List RenewalRow :=
  (rows.map (sweepExpired today)).map (sweepExpiring today)

/-- Truthiness of a nullable number: null/undefined and 0 are falsy. -/
def jsTruthyNum : Option ℚ → Bool
  | none => false
  | some q => !(q == 0)

/-- Embeds the JavaScript expression (x || dflt) for a nullable number x. -/
def jsOrNum (x : Option ℚ) (dflt : ℚ) : ℚ :=
  if jsTruthyNum x then x.getD 0 else dflt

/-- Invoice header row as stored by the invoices table (the columns the claims
depend on). -/
structure InvoiceRow where
  id : Nat
  customerId : Nat
  invoiceNumber : String
deriving DecidableEq

/-- Invoice line-item row as stored by the invoice_items table. -/
structure ItemRow where
  id : Nat
  invoiceId : Nat
deriving DecidableEq

/-- Relational store state visible to the creation paths.  The invoices list
is kept most-recently-created first, so its head is the row that
ORDER BY created_at DESC LIMIT 1 returns. -/
structure Db where
  customers : List Nat
  invoices : List InvoiceRow
  invoiceItems : List ItemRow
deriving DecidableEq

/-- Failure oracle for the four fallible store calls of createAutoInvoice
(src/routes/customers.js lines 78-180): the last-invoice SELECT, the
duplicate-number SELECT, the invoice INSERT and the item INSERT. -/
structure AutoOracle where
  failSelectLast : Bool
  failSelectDup : Bool
  failInsertInvoice : Bool
  failInsertItem : Bool
deriving DecidableEq

/-- Result object returned by createAutoInvoice on success (src/routes/
customers.js lines 169-175). -/
structure AutoInvoiceResult where
  id : Nat
  invoiceNumber : String
  amount : ℚ
  total : ℚ
  status : String
deriving DecidableEq

/-- Effect of invoice_number.replace("INV-", "") on a stored number (the tag,
when present, sits at the front). -/
def invTagStripped (s : String) : List Char :=
  match s.data with
  | 'I' :: 'N' :: 'V' :: '-' :: rest => rest
  | l => l

/-- Decimal digit test used by parseInt. -/
def isDigitChar (c : Char) : Bool := 48 ≤ c.toNat && c.toNat ≤ 57

/-- Value of the leading decimal digits, accumulator style. -/
def digitsValue : List Char → Nat → Nat
  | [], acc => acc
  | c :: cs, acc =>
    if isDigitChar c then digitsValue cs (acc * 10 + (c.toNat - 48)) else acc

/-- parseInt(s, 10): the value of the leading digit run, NaN (none) when the
string does not start with a digit. -/
def jsParseInt (cs : List Char) : Option Nat :=
  match cs with
  | [] => none
  | c :: _ => if isDigitChar c then some (digitsValue cs 0) else none

/-- Next sequential invoice number computed by createAutoInvoice
(src/routes/customers.js lines 81-90): parse the most recently created
invoice's number, add one, left-pad to three digits.  A non-numeric stored
number makes parseInt produce NaN, giving the literal INV-NaN. -/
def nextInvoiceNumber (db : Db) : String :=
  match db.invoices.head? with
  | none => "INV-" ++ (toString 1).leftpad 3 '0'
  | some row =>
    match jsParseInt (invTagStripped row.invoiceNumber) with
    | some k => "INV-" ++ (toString (k + 1)).leftpad 3 '0'
    | none => "INV-NaN"

/-- Steps of createAutoInvoice before the catch-all (src/routes/customers.js
lines 79-175), threading the store state through every step so that a throw
surfaces the state already written.  An Except.error models a thrown store
error; Except.ok none models the early return null on a duplicate invoice
number. -/
def createAutoInvoiceSteps (db : Db) (o : AutoOracle) (customerId : Nat)
    (customer : Customer) (invoiceId itemId : Nat) :
    Db × Except String (Option AutoInvoiceResult) :=
  if o.failSelectLast then (db, Except.error "select last invoice failed")
  else
    let invoiceNumber := nextInvoiceNumber db
    if o.failSelectDup then (db, Except.error "duplicate check failed")
    else if db.invoices.any (fun i => i.invoiceNumber == invoiceNumber) then
      -- console.warn("Duplicate invoice number ..., skipping auto invoice")
      (db, Except.ok none)
    else
      let invoiceAmount : ℚ :=
        jsOrNum customer.one_time_price
          (jsOrNum customer.monthly_price (jsOrNum customer.total_value 0))
      let taxRate : ℚ := jsOrNum customer.default_tax_rate 18
      if o.failInsertInvoice then (db, Except.error "invoice insert failed")
      else
        let db1 : Db :=
          { db with invoices := ⟨invoiceId, customerId, invoiceNumber⟩ :: db.invoices }
        if o.failInsertItem then (db1, Except.error "item insert failed")
        else
          let db2 : Db :=
            { db1 with invoiceItems := ⟨itemId, invoiceId⟩ :: db1.invoiceItems }
          (db2, Except.ok (some
            { id := invoiceId
              invoiceNumber := invoiceNumber
              amount := invoiceAmount
              total := invoiceAmount + invoiceAmount * taxRate / 100
              status := "draft" }))

/-- Embeds createAutoInvoice (src/routes/customers.js lines 78-180): the body
runs without a transaction, and the catch-all converts any thrown error into
a null result, keeping whatever rows were already written. -/
def createAutoInvoice (db : Db) (o : AutoOracle) (customerId : Nat)
    (customer : Customer) (invoiceId itemId : Nat) : Db × Option AutoInvoiceResult :=
  let (db', r) := createAutoInvoiceSteps db o customerId customer invoiceId itemId
  (db', match r with
        | Except.ok v => v
        | Except.error _ => none)

/-- Embeds the tail of the customer POST route (src/routes/customers.js lines
500-602): after the customer row is inserted, createAutoInvoice runs and the
route responds 201 with the created customer and the (possibly null)
auto-invoice.  The route's own earlier failure paths (validation, duplicate
email, customer-insert failure) respond before the auto-invoice phase and are
outside this model. -/
def customersPostRoute (db : Db) (o : AutoOracle) (customerId : Nat)
    (customer : Customer) (invoiceId itemId : Nat) :
    Db × (Nat × Option AutoInvoiceResult) :=
  let db1 : Db := { db with customers := customerId :: db.customers }
  let (db2, inv) := createAutoInvoice db1 o customerId customer invoiceId itemId
  (db2, (201, inv))

/-- Failure oracle for the store calls of the invoice POST route: the header
INSERT with issue_date, the fallback header INSERT without issue_date, and
each line-item INSERT (by index). -/
structure RouteOracle where
  failInsertWithIssueDate : Bool
  failInsertFallback : Bool
  failItemInsert : Nat → Bool

/-- Line-item insertion loop of the invoice POST route (src/routes/invoices.js
lines 464-469), run inside the open transaction: returns the extended state,
or none when an item INSERT throws. -/
def insertItemsLoop (o : RouteOracle) (invoiceId : Nat) :
    Db → Nat → List Nat → Option Db
  | db, _, [] => some db
  | db, idx, itemId :: rest =>
    if o.failItemInsert idx then none
    else
      insertItemsLoop o invoiceId
        { db with invoiceItems := ⟨itemId, invoiceId⟩ :: db.invoiceItems }
        (idx + 1) rest

/-- Embeds the invoice POST route's multi-row write (src/routes/invoices.js
lines 443-493): inside an explicit transaction, insert the header (falling
back to the variant without issue_date if the first INSERT throws), insert
every line item, then commit; any remaining error rolls the transaction back
to the initial state and is surfaced to the caller as a hard failure (500).
The invoice number is generated externally by generateInvoiceNumber and
passed in. -/
def createInvoiceRoute (db : Db) (o : RouteOracle) (customerId invoiceId : Nat)
    (invoiceNumber : String) (itemIds : List Nat) : Db × Except String Nat :=
  let headerInserted : Option Db :=
    if !o.failInsertWithIssueDate then
      some { db with invoices := ⟨invoiceId, customerId, invoiceNumber⟩ :: db.invoices }
    else if !o.failInsertFallback then
      some { db with invoices := ⟨invoiceId, customerId, invoiceNumber⟩ :: db.invoices }
    else none
  match headerInserted with
  | none => (db, Except.error "Failed to create invoice")
  | some dbh =>
    match insertItemsLoop o invoiceId dbh 0 itemIds with
    | none => (db, Except.error "Failed to create invoice")
    | some dbf => (dbf, Except.ok invoiceId)

/-! Theorems. -/

theorem daysInMonth_pos (y m : Nat) : 1 ≤ daysInMonth y m := by
  unfold daysInMonth
  split
  · split <;> omega
  · split <;> omega

theorem addMonths_eq_clamped (d : Ymd) (n : Nat) :
    addMonths d n =
      ⟨d.year + (d.month - 1 + n) / 12, (d.month - 1 + n) % 12 + 1,
        min d.day
          (daysInMonth (d.year + (d.month - 1 + n) / 12) ((d.month - 1 + n) % 12 + 1))⟩ := by
  have hrfl : addMonths d n =
      if d.day ≤ daysInMonth (d.year + (d.month - 1 + n) / 12) ((d.month - 1 + n) % 12 + 1)
      then (⟨d.year + (d.month - 1 + n) / 12, (d.month - 1 + n) % 12 + 1, d.day⟩ : Ymd)
      else ⟨d.year + (d.month - 1 + n) / 12, (d.month - 1 + n) % 12 + 1,
        daysInMonth (d.year + (d.month - 1 + n) / 12) ((d.month - 1 + n) % 12 + 1)⟩ := rfl
  rw [hrfl]
  by_cases h :
      d.day ≤ daysInMonth (d.year + (d.month - 1 + n) / 12) ((d.month - 1 + n) % 12 + 1)
  · rw [if_pos h, min_eq_left h]
  · rw [if_neg h, min_eq_right (le_of_not_le h)]

/-- C5: for every valid calendar date, addMonths adds n calendar months: the
result lands in the month obtained by normalizing month - 1 + n, its day is
the original day clamped to that month's length (so the result is again a
valid date and never overflows into the next month); in particular
2024-01-31 plus one month is 2024-02-29 and 2024-02-29 plus twelve months is
2025-02-28. -/
theorem addMonths_adds_months_with_month_end_clamp (d : Ymd) (n : Nat)
    (hd1 : 1 ≤ d.day) (hd2 : d.day ≤ daysInMonth d.year d.month) :
    (addMonths d n).year = d.year + (d.month - 1 + n) / 12 ∧
    (addMonths d n).month = (d.month - 1 + n) % 12 + 1 ∧
    1 ≤ (addMonths d n).month ∧ (addMonths d n).month ≤ 12 ∧
    (addMonths d n).day =
      min d.day (daysInMonth (addMonths d n).year (addMonths d n).month) ∧
    1 ≤ (addMonths d n).day ∧
    (addMonths d n).day ≤ daysInMonth (addMonths d n).year (addMonths d n).month ∧
    addMonths ⟨2024, 1, 31⟩ 1 = ⟨2024, 2, 29⟩ ∧
    addMonths ⟨2024, 2, 29⟩ 12 = ⟨2025, 2, 28⟩ := by
  have hpos := daysInMonth_pos (d.year + (d.month - 1 + n) / 12) ((d.month - 1 + n) % 12 + 1)
  have hmod : (d.month - 1 + n) % 12 < 12 := Nat.mod_lt _ (by omega)
  rw [addMonths_eq_clamped]
  dsimp only
  refine ⟨rfl, rfl, by omega, by omega, by omega, by omega, by omega, by decide, by decide⟩

/-- Witness for C5 at the concrete date 2024-01-31 plus one month. -/
theorem addMonths_adds_months_with_month_end_clamp_witness :
    (addMonths ⟨2024, 1, 31⟩ 1).month = (1 - 1 + 1) % 12 + 1 ∧
    (addMonths ⟨2024, 1, 31⟩ 1).day =
      min 31 (daysInMonth (addMonths ⟨2024, 1, 31⟩ 1).year (addMonths ⟨2024, 1, 31⟩ 1).month) := by
  have h := addMonths_adds_months_with_month_end_clamp ⟨2024, 1, 31⟩ 1 (by decide) (by decide)
  exact ⟨h.2.1, h.2.2.2.2.1⟩

/-- Customer record with every nullable column null. -/
def blankCustomer : Customer :=
  ⟨none, none, none, none, none, none, none, none, none, none, none, none, none, none⟩

/-- Renewal request body with every field absent. -/
def blankRenewalBody : RenewalBody := ⟨none, none, DateInput.absent, none, none, none⟩

/-- Invoice request body with every field absent. -/
def blankInvoiceBody : InvoiceBody :=
  ⟨none, none, none, none, DateInput.absent, DateInput.absent, none, none⟩

/-- C2 (code-bug evaluation): with no status override, a customer whose
default_renewal_status is "renewed" and an expiry 60 days out, the builder
returns the auto-classified "active" — the customer default that the claim
(and the code's own comment: status from request, then customer default, then
auto from expiry) says should win is dropped, because the auto-classification
runs whenever the request carries no truthy status. -/
theorem buildRenewal_status_drops_customer_default :
    (buildRenewalFromCustomer (msOfYmd ⟨2024, 1, 1⟩)
        { blankCustomer with
            created_at := some ⟨2024, 1, 1⟩
            default_renewal_status := some "renewed" }
        { blankRenewalBody with expiryDate := DateInput.valid ⟨2024, 3, 1⟩ }).status
      = "active" ∧
    jsOrStr (some "renewed") "active" = "renewed" := by
  exact ⟨rfl, rfl⟩

theorem buildRenewal_expiryDate_eq (nowMs : Int) (c : Customer) (b : RenewalBody) :
    (buildRenewalFromCustomer nowMs c b).expiryDate =
      if jsTruthyDate b.expiryDate then toSqlDate b.expiryDate
      else
        some (addMonths (c.created_at.getD (todayYmd nowMs))
          (if jsOrStr c.recurring_interval "monthly" == "yearly" then 12 else 1)) := rfl

/-- C4 (counterexample): a present but malformed expiryDate override is not
treated as absent — toSqlDate maps it to null and the builder returns a
renewal candidate with a null expiry_date instead of deriving it from
customer.created_at plus the interval. -/
theorem buildRenewal_malformed_expiry_yields_null :
    (buildRenewalFromCustomer 0
        { blankCustomer with created_at := some ⟨2024, 1, 15⟩ }
        { blankRenewalBody with expiryDate := DateInput.malformed }).expiryDate = none := rfl

/-- C4 (amended): the built renewal's expiryDate is non-null whenever the
optional expiryDate override is absent or well-formed; when it is absent the
date is derived from customer.created_at (today when null) plus one month for
a monthly interval and twelve for a yearly one. -/
theorem buildRenewal_expiry_nonnull_unless_malformed (nowMs : Int) (c : Customer)
    (b : RenewalBody) (h : b.expiryDate ≠ DateInput.malformed) :
    (buildRenewalFromCustomer nowMs c b).expiryDate.isSome = true ∧
    (b.expiryDate = DateInput.absent →
      (buildRenewalFromCustomer nowMs c b).expiryDate =
        some (addMonths (c.created_at.getD (todayYmd nowMs))
          (if jsOrStr c.recurring_interval "monthly" == "yearly" then 12 else 1))) := by
  rw [buildRenewal_expiryDate_eq]
  cases hb : b.expiryDate with
  | absent => simp [jsTruthyDate]
  | valid d => simp [jsTruthyDate, toSqlDate]
  | malformed => exact absurd hb h

/-- Witness for C4 at a request with no expiryDate override. -/
theorem buildRenewal_expiry_nonnull_unless_malformed_witness :
    (buildRenewalFromCustomer 0 blankCustomer blankRenewalBody).expiryDate.isSome = true :=
  (buildRenewal_expiry_nonnull_unless_malformed 0 blankCustomer blankRenewalBody
    (by decide)).1

/-- Total resolution in the words of the specification (claim C6): the total
is the override when one is given, else amount + amount*tax/100, where amount
falls back to the sum of the supplied line-item amounts and then 0, and tax
falls back to customer.default_tax_rate and then 0. -/
def claimInvoiceTotal (c : Customer) (b : InvoiceBody) : ℚ :=
  match b.total with
  | some t => t
  | none =>
    let amount : ℚ :=
      match b.amount with
      | some a => a
      | none =>
        match b.items with
        | some its => its.foldl (fun s x => s + x) 0
        | none => 0
    let tax : ℚ := b.tax.getD (c.default_tax_rate.getD 0)
    amount + amount * tax / 100

/-- C6: for every customer and request, the built invoice's total equals the
claimed resolution (override, else amount + amount*tax/100 with the claimed
fallbacks), and amount 1000 with tax 18 and no total override gives 1180. -/
theorem buildInvoice_total_resolution :
    (∀ (nowMs : Int) (c : Customer) (b : InvoiceBody),
      (buildInvoiceFromCustomer nowMs c b).total = claimInvoiceTotal c b) ∧
    (buildInvoiceFromCustomer 0 blankCustomer
        { blankInvoiceBody with amount := some 1000, tax := some 18 }).total = 1180 := by
  constructor
  · intro nowMs c b
    obtain ⟨amt, tax, tot, st, iss, due, nts, its⟩ := b
    cases tot <;> cases amt <;> cases its <;> cases tax <;> rfl
  · show (1000 : ℚ) + 1000 * 18 / 100 = 1180
    norm_num

/-- Due-date resolution in the words of the specification (claim C7): the
override when given, else the resolved issue date (override, else today) plus
customer.default_due_days with default 7. -/
def claimInvoiceDueDate (nowMs : Int) (c : Customer) (b : InvoiceBody) : Option Ymd :=
  if jsTruthyDate b.dueDate then toSqlDate b.dueDate
  else
    (if jsTruthyDate b.issueDate then toSqlDate b.issueDate
     else some (todayYmd nowMs)).map
      (fun d => addDays d (c.default_due_days.getD 7))

theorem buildInvoice_dueDate_eq (nowMs : Int) (c : Customer) (b : InvoiceBody) :
    (buildInvoiceFromCustomer nowMs c b).dueDate =
      if jsTruthyDate b.dueDate then toSqlDate b.dueDate
      else some (addDays (todayYmd nowMs) (c.default_due_days.getD 7)) := rfl

theorem buildInvoice_issueDate_eq (nowMs : Int) (c : Customer) (b : InvoiceBody) :
    (buildInvoiceFromCustomer nowMs c b).issueDate =
      if jsTruthyDate b.issueDate then toSqlDate b.issueDate
      else some (todayYmd nowMs) := rfl

/-- C7 (counterexample): with today 2024-06-15, an issueDate override of
2024-01-01, no dueDate and no default_due_days, the code derives
due_date = today + 7 = 2024-06-22, while the claim derives
issue date + 7 = 2024-01-08. -/
theorem buildInvoice_dueDate_ignores_issueDate :
    (buildInvoiceFromCustomer (msOfYmd ⟨2024, 6, 15⟩) blankCustomer
        { blankInvoiceBody with issueDate := DateInput.valid ⟨2024, 1, 1⟩ }).dueDate
      = some ⟨2024, 6, 22⟩ ∧
    claimInvoiceDueDate (msOfYmd ⟨2024, 6, 15⟩) blankCustomer
        { blankInvoiceBody with issueDate := DateInput.valid ⟨2024, 1, 1⟩ }
      = some ⟨2024, 1, 8⟩ ∧
    (buildInvoiceFromCustomer (msOfYmd ⟨2024, 6, 15⟩) blankCustomer
        { blankInvoiceBody with issueDate := DateInput.valid ⟨2024, 1, 1⟩ }).dueDate
      ≠ claimInvoiceDueDate (msOfYmd ⟨2024, 6, 15⟩) blankCustomer
          { blankInvoiceBody with issueDate := DateInput.valid ⟨2024, 1, 1⟩ } := by
  refine ⟨rfl, rfl, by decide⟩

/-- C7 (amended): when the request supplies no dueDate, the built invoice's
dueDate is today (the wall-clock date) plus customer.default_due_days
(default 7), regardless of any issueDate override; it coincides with
issue date + due days exactly when the issueDate is not overridden either. -/
theorem buildInvoice_dueDate_from_today (nowMs : Int) (c : Customer) (b : InvoiceBody)
    (h : jsTruthyDate b.dueDate = false) :
    (buildInvoiceFromCustomer nowMs c b).dueDate =
      some (addDays (todayYmd nowMs) (c.default_due_days.getD 7)) ∧
    (b.issueDate = DateInput.absent →
      (buildInvoiceFromCustomer nowMs c b).dueDate =
        (buildInvoiceFromCustomer nowMs c b).issueDate.map
          (fun d => addDays d (c.default_due_days.getD 7))) := by
  rw [buildInvoice_dueDate_eq, buildInvoice_issueDate_eq]
  constructor
  · simp [h]
  · intro hb
    rw [hb, show jsTruthyDate DateInput.absent = false from rfl]
    simp [h]

/-- Witness for C7 at a request with no dates supplied. -/
theorem buildInvoice_dueDate_from_today_witness :
    (buildInvoiceFromCustomer 0 blankCustomer blankInvoiceBody).dueDate =
      some (addDays (todayYmd 0) 7) :=
  (buildInvoice_dueDate_from_today 0 blankCustomer blankInvoiceBody rfl).1

/-- C3: one run of the daily status sweep applies the expired UPDATE and then
the expiring UPDATE to every renewal row; any row with expiry_date before
today ends up expired (including one that was expiring), any row within the
next 30 days that was active becomes expiring, and a row already expired is
never moved back to expiring. -/
theorem updateRenewalStatuses_transitions (today : Int) (r : RenewalRow)
    (rows : List RenewalRow) :
    updateRenewalStatuses today rows =
      rows.map (fun x => sweepExpiring today (sweepExpired today x)) ∧
    (r.expiryDay < today →
      (sweepExpiring today (sweepExpired today r)).status = "expired") ∧
    (today ≤ r.expiryDay ∧ r.expiryDay ≤ today + 30 ∧ r.status = "active" →
      (sweepExpiring today (sweepExpired today r)).status = "expiring") ∧
    (r.status = "expired" →
      (sweepExpiring today (sweepExpired today r)).status = "expired") := by
  refine ⟨?_, ?_, ?_, ?_⟩
  · rw [updateRenewalStatuses, List.map_map]
    rfl
  · intro h
    by_cases hs : r.status = "expired"
    · simp [sweepExpired, sweepExpiring, hs, show ¬(today ≤ r.expiryDay) from by omega]
    · simp [sweepExpired, sweepExpiring, hs, h, show ¬(today ≤ r.expiryDay) from by omega]
  · rintro ⟨h1, h2, h3⟩
    simp [sweepExpired, sweepExpiring, h1, h2, h3, show ¬(r.expiryDay < today) from by omega]
  · intro hs
    simp [sweepExpired, sweepExpiring, hs]

/-- Witness for C3: a renewal that expired yesterday and was still expiring is
expired after the sweep. -/
theorem updateRenewalStatuses_transitions_witness :
    (sweepExpiring 100 (sweepExpired 100 ⟨0, 99, "expiring"⟩)).status = "expired" :=
  (updateRenewalStatuses_transitions 100 ⟨0, 99, "expiring"⟩ []).2.1 (by decide)

theorem sweepReminder_again_same_day_false (nowMs now2 : Int) (r : Reminder)
    (hd : dayOfMs now2 = dayOfMs nowMs) :
    (sweepReminder now2 (sweepReminder nowMs r).1).2 = false ∨
      (sweepReminder nowMs r).1 = r := by
  by_cases he : reminderEligible r = true
  · by_cases hc : reminderShouldSend nowMs r = true
    · left
      have h1 : (sweepReminder nowMs r).1 =
          { r with lastReminderSent := some (dayOfMs nowMs) } := by
        simp [sweepReminder, he, processReminder, hc]
      rw [h1]
      have he2 : reminderEligible { r with lastReminderSent := some (dayOfMs nowMs) } =
          reminderEligible r := rfl
      simp [sweepReminder, he2, he, processReminder, reminderShouldSend, hd]
    · right
      simp [sweepReminder, he, processReminder, hc]
  · right
    simp [sweepReminder, he]

theorem sweepReminder_twice_false (nowMs : Int) (r : Reminder) :
    (sweepReminder nowMs (sweepReminder nowMs r).1).2 = false := by
  rcases sweepReminder_again_same_day_false nowMs nowMs r rfl with h | h
  · exact h
  · rw [h]
    by_cases he : reminderEligible r = true
    · by_cases hc : reminderShouldSend nowMs r = true
      · exfalso
        have h1 : (sweepReminder nowMs r).1 =
            { r with lastReminderSent := some (dayOfMs nowMs) } := by
          simp [sweepReminder, he, processReminder, hc]
        have hr : r = { r with lastReminderSent := some (dayOfMs nowMs) } :=
          h.symm.trans h1
        have hls : r.lastReminderSent = some (dayOfMs nowMs) := by
          simpa using congrArg Reminder.lastReminderSent hr
        simp [reminderShouldSend, hls] at hc
      · simp [sweepReminder, he, processReminder, hc]
    · simp [sweepReminder, he]

theorem runReminderSweep_twice_zero (nowMs : Int) (rs : List Reminder) :
    (runReminderSweep nowMs (runReminderSweep nowMs rs).1).2 = 0 := by
  induction rs with
  | nil => rfl
  | cons r rest ih =>
    simp [runReminderSweep, sweepReminder_twice_false, ih]

/-- C1: an eligible reminder row (status active, non-empty WhatsApp contact)
is dispatched by a sweep run exactly when daysUntilExpiry lies in its
configured reminder_days set and last_reminder_sent is not today; dispatch
records last_reminder_sent = today, so a later run on the same calendar day
never dispatches to it again, and an immediately repeated full sweep
dispatches zero reminders. -/
theorem reminderSweep_dispatch_iff_due_and_not_sent_today (nowMs : Int) (r : Reminder)
    (rs : List Reminder) (h1 : r.status = "active") (h2 : r.customerWhatsapp ≠ "") :
    ((sweepReminder nowMs r).2 = true ↔
      (daysUntilExpiryMs nowMs r.expiry ∈ r.reminderDays ∧
        r.lastReminderSent ≠ some (dayOfMs nowMs))) ∧
    ((sweepReminder nowMs r).2 = true →
      (sweepReminder nowMs r).1.lastReminderSent = some (dayOfMs nowMs)) ∧
    (∀ now2 : Int, dayOfMs now2 = dayOfMs nowMs →
      (sweepReminder nowMs r).2 = true →
      (sweepReminder now2 (sweepReminder nowMs r).1).2 = false) ∧
    (runReminderSweep nowMs (runReminderSweep nowMs rs).1).2 = 0 := by
  have he : reminderEligible r = true := by
    simp [reminderEligible, h1, h2]
  refine ⟨?_, ?_, ?_, runReminderSweep_twice_zero nowMs rs⟩
  · by_cases hc : reminderShouldSend nowMs r = true
    · simp only [sweepReminder, he, if_true, processReminder, hc]
      simp only [reminderShouldSend, Bool.and_eq_true, Bool.not_eq_true',
        beq_eq_false_iff_ne, ne_eq, List.elem_iff] at hc
      simpa using hc
    · simp only [sweepReminder, he, if_true, processReminder, hc, if_false]
      simp only [reminderShouldSend, Bool.and_eq_true, Bool.not_eq_true',
        beq_eq_false_iff_ne, ne_eq, List.elem_iff] at hc
      simpa using hc
  · intro hsent
    by_cases hc : reminderShouldSend nowMs r = true
    · simp [sweepReminder, he, processReminder, hc]
    · simp [sweepReminder, he, processReminder, hc] at hsent
  · intro now2 hd hsent
    rcases sweepReminder_again_same_day_false nowMs now2 r hd with h | h
    · exact h
    · exfalso
      by_cases hc : reminderShouldSend nowMs r = true
      · have h1' : (sweepReminder nowMs r).1 =
            { r with lastReminderSent := some (dayOfMs nowMs) } := by
          simp [sweepReminder, he, processReminder, hc]
        have hr : r = { r with lastReminderSent := some (dayOfMs nowMs) } :=
          h.symm.trans h1'
        have hls : r.lastReminderSent = some (dayOfMs nowMs) := by
          simpa using congrArg Reminder.lastReminderSent hr
        simp [reminderShouldSend, hls] at hc
      · simp [sweepReminder, he, processReminder, hc] at hsent

/-- Witness for C1: a reminder seven days before expiry with offset set
containing 7 and no prior send is dispatched. -/
theorem reminderSweep_dispatch_iff_due_and_not_sent_today_witness :
    (sweepReminder 0 ⟨0, "active", "919999999999", [7], 7 * msPerDay, none⟩).2 = true :=
  ((reminderSweep_dispatch_iff_due_and_not_sent_today 0
      ⟨0, "active", "919999999999", [7], 7 * msPerDay, none⟩ [] rfl
      (by decide)).1).mpr (by constructor <;> decide)

/-- C8 (counterexample): with the item INSERT failing, the auto-invoice path
run on an empty store leaves the invoice header visible with no line items
and reports null instead of surfacing the failure — it is not executed inside
a rollback-on-failure transaction. -/
theorem createAutoInvoice_partial_write_visible :
    (createAutoInvoice ⟨[], [], []⟩ ⟨false, false, false, true⟩ 1 blankCustomer 10 11).1.invoices
      = [⟨10, 1, "INV-001"⟩] ∧
    (createAutoInvoice ⟨[], [], []⟩ ⟨false, false, false, true⟩ 1 blankCustomer 10 11).1.invoiceItems
      = [] ∧
    (createAutoInvoice ⟨[], [], []⟩ ⟨false, false, false, true⟩ 1 blankCustomer 10 11).2 = none := by
  refine ⟨rfl, rfl, rfl⟩

theorem insertItemsLoop_spec (o : RouteOracle) (invoiceId : Nat) (itemIds : List Nat) :
    ∀ (db : Db) (idx : Nat) (dbf : Db),
      insertItemsLoop o invoiceId db idx itemIds = some dbf →
      dbf.customers = db.customers ∧ dbf.invoices = db.invoices ∧
      dbf.invoiceItems =
        (itemIds.map (fun t => (⟨t, invoiceId⟩ : ItemRow))).reverse ++ db.invoiceItems := by
  induction itemIds with
  | nil =>
    intro db idx dbf h
    cases h
    simp
  | cons t rest ih =>
    intro db idx dbf h
    unfold insertItemsLoop at h
    split at h
    · exact absurd h (by simp)
    · have hspec := ih
        { db with invoiceItems := ⟨t, invoiceId⟩ :: db.invoiceItems } (idx + 1) dbf h
      refine ⟨hspec.1, hspec.2.1, ?_⟩
      rw [hspec.2.2]
      simp

/-- C8 (amended): the invoice POST route's multi-row write is transactional:
on any step failure the store is rolled back to its initial state and the
failure is surfaced to the caller, while on success the header and every line
item are visible together; the auto-generated invoice created on customer
creation, by contrast, runs without a transaction (see its counterexample). -/
theorem createInvoiceRoute_transactional (db : Db) (o : RouteOracle)
    (customerId invoiceId : Nat) (invoiceNumber : String) (itemIds : List Nat) :
    (∀ e, (createInvoiceRoute db o customerId invoiceId invoiceNumber itemIds).2 =
        Except.error e →
      (createInvoiceRoute db o customerId invoiceId invoiceNumber itemIds).1 = db) ∧
    (∀ dbf, createInvoiceRoute db o customerId invoiceId invoiceNumber itemIds =
        (dbf, Except.ok invoiceId) →
      dbf.invoices = ⟨invoiceId, customerId, invoiceNumber⟩ :: db.invoices ∧
      dbf.invoiceItems =
        (itemIds.map (fun t => (⟨t, invoiceId⟩ : ItemRow))).reverse ++ db.invoiceItems ∧
      dbf.customers = db.customers) ∧
    ((createInvoiceRoute db o customerId invoiceId invoiceNumber itemIds).2 =
        Except.ok invoiceId ∨
      (createInvoiceRoute db o customerId invoiceId invoiceNumber itemIds).2 =
        Except.error "Failed to create invoice") := by
  unfold createInvoiceRoute
  have hheader :
      (if !o.failInsertWithIssueDate then
        some { db with invoices := ⟨invoiceId, customerId, invoiceNumber⟩ :: db.invoices }
      else if !o.failInsertFallback then
        some { db with invoices := ⟨invoiceId, customerId, invoiceNumber⟩ :: db.invoices }
      else (none : Option Db))
      = if o.failInsertWithIssueDate && o.failInsertFallback then none
        else some { db with invoices := ⟨invoiceId, customerId, invoiceNumber⟩ :: db.invoices } := by
    cases o.failInsertWithIssueDate <;> cases o.failInsertFallback <;> rfl
  rw [hheader]
  by_cases hb : (o.failInsertWithIssueDate && o.failInsertFallback) = true
  · rw [if_pos hb]
    exact ⟨fun e _ => rfl, fun dbf hdf => absurd hdf (by simp), Or.inr rfl⟩
  · rw [if_neg hb]
    cases hloop : insertItemsLoop o invoiceId
        { db with invoices := ⟨invoiceId, customerId, invoiceNumber⟩ :: db.invoices }
        0 itemIds with
    | none =>
      refine ⟨fun e _ => ?_, fun dbf hdf => absurd hdf ?_, Or.inr ?_⟩ <;>
        simp [hloop]
    | some dbx =>
      have hspec := insertItemsLoop_spec o invoiceId itemIds
        { db with invoices := ⟨invoiceId, customerId, invoiceNumber⟩ :: db.invoices }
        0 dbx hloop
      refine ⟨fun e he => absurd he ?_, ?_, Or.inl ?_⟩
      · simp [hloop]
      · intro dbf hdf
        rw [show (match insertItemsLoop o invoiceId
            { db with invoices := ⟨invoiceId, customerId, invoiceNumber⟩ :: db.invoices }
            0 itemIds with
          | none => (db, Except.error "Failed to create invoice")
          | some dbf => (dbf, Except.ok invoiceId))
            = (dbx, Except.ok invoiceId) by rw [hloop]] at hdf
        have hdb : dbf = dbx := by
          have := congrArg Prod.fst hdf
          simpa using this.symm
        subst hdb
        exact ⟨hspec.2.1, hspec.2.2, hspec.1⟩
      · simp [hloop]

/-- Witness for C8: a successful run on an empty store commits the header and
both line items together. -/
theorem createInvoiceRoute_transactional_witness :
    (⟨[], [⟨10, 1, "INV-A"⟩], [⟨6, 10⟩, ⟨5, 10⟩]⟩ : Db).invoices
      = ⟨10, 1, "INV-A"⟩ :: (⟨[], [], []⟩ : Db).invoices ∧
    (⟨[], [⟨10, 1, "INV-A"⟩], [⟨6, 10⟩, ⟨5, 10⟩]⟩ : Db).invoiceItems
      = ([5, 6].map (fun t => (⟨t, 10⟩ : ItemRow))).reverse ++ (⟨[], [], []⟩ : Db).invoiceItems ∧
    (⟨[], [⟨10, 1, "INV-A"⟩], [⟨6, 10⟩, ⟨5, 10⟩]⟩ : Db).customers
      = (⟨[], [], []⟩ : Db).customers :=
  (createInvoiceRoute_transactional ⟨[], [], []⟩ ⟨false, false, fun _ => false⟩ 1 10
      "INV-A" [5, 6]).2.1 ⟨[], [⟨10, 1, "INV-A"⟩], [⟨6, 10⟩, ⟨5, 10⟩]⟩ rfl

/-- Store state in which the next sequential number computed from the most
recently created invoice (INV-002) collides with an already existing
INV-003. -/
def collisionDb : Db := ⟨[9], [⟨2, 9, "INV-002"⟩, ⟨3, 9, "INV-003"⟩], []⟩

/-- C9 (counterexample): when the generated number collides with an existing
invoice, createAutoInvoice skips creation and returns null — nothing is
retried and nothing is inserted, so the creation request is silently
skipped. -/
theorem createAutoInvoice_collision_silently_skipped :
    nextInvoiceNumber collisionDb = "INV-003" ∧
    collisionDb.invoices.any
      (fun i => i.invoiceNumber == nextInvoiceNumber collisionDb) = true ∧
    createAutoInvoice collisionDb ⟨false, false, false, false⟩ 9 blankCustomer 10 11
      = (collisionDb, none) := by
  refine ⟨rfl, rfl, rfl⟩

/-- C9 (amended): the auto-invoice path does collision-check the generated
number before inserting, but on collision it does not retry: the request is
skipped, null is returned and the store is left unchanged. -/
theorem createAutoInvoice_skips_on_collision (db : Db) (o : AutoOracle)
    (customer : Customer) (customerId invoiceId itemId : Nat)
    (h : db.invoices.any (fun i => i.invoiceNumber == nextInvoiceNumber db) = true) :
    createAutoInvoice db o customerId customer invoiceId itemId = (db, none) := by
  unfold createAutoInvoice createAutoInvoiceSteps
  cases h1 : o.failSelectLast <;> cases h2 : o.failSelectDup <;> simp [h1, h2, h]

/-- Witness for C9 on the concrete collision store. -/
theorem createAutoInvoice_skips_on_collision_witness :
    createAutoInvoice collisionDb ⟨true, false, false, false⟩ 9 blankCustomer 20 21
      = (collisionDb, none) :=
  createAutoInvoice_skips_on_collision collisionDb ⟨true, false, false, false⟩
    blankCustomer 9 20 21 (by decide)

/-- Catch-all of createAutoInvoice: a thrown error is converted to null. -/
def caughtOrNull : Except String (Option AutoInvoiceResult) → Option AutoInvoiceResult
  | Except.ok v => v
  | Except.error _ => none

theorem createAutoInvoiceSteps_customers (db : Db) (o : AutoOracle)
    (customerId : Nat) (customer : Customer) (invoiceId itemId : Nat) :
    (createAutoInvoiceSteps db o customerId customer invoiceId itemId).1.customers
      = db.customers := by
  unfold createAutoInvoiceSteps
  dsimp only
  repeat' split
  all_goals rfl

/-- C10: the customer POST route always responds 201 with the created customer
regardless of what happens during auto-invoice generation: the customer row
stays in the store, the returned invoice is the caught-or-null conversion of
the auto-invoice steps' outcome, and any thrown store error (failed
uniqueness pre-check or failed insert) therefore surfaces only as
invoice: null, never as a request failure. -/
theorem customersPost_auto_invoice_failure_isolated (db : Db) (o : AutoOracle)
    (customer : Customer) (customerId invoiceId itemId : Nat) :
    (customersPostRoute db o customerId customer invoiceId itemId).2.1 = 201 ∧
    customerId ∈ (customersPostRoute db o customerId customer invoiceId itemId).1.customers ∧
    (customersPostRoute db o customerId customer invoiceId itemId).2.2 =
      caughtOrNull
        (createAutoInvoiceSteps { db with customers := customerId :: db.customers } o
          customerId customer invoiceId itemId).2 ∧
    (∀ e, (createAutoInvoiceSteps { db with customers := customerId :: db.customers } o
          customerId customer invoiceId itemId).2 = Except.error e →
      (customersPostRoute db o customerId customer invoiceId itemId).2.2 = none) := by
  refine ⟨rfl, ?_, ?_, ?_⟩
  · show customerId ∈
      (createAutoInvoice { db with customers := customerId :: db.customers } o
        customerId customer invoiceId itemId).1.customers
    have hc : (createAutoInvoice { db with customers := customerId :: db.customers } o
        customerId customer invoiceId itemId).1.customers
        = customerId :: db.customers := by
      show (createAutoInvoiceSteps { db with customers := customerId :: db.customers } o
          customerId customer invoiceId itemId).1.customers = _
      rw [createAutoInvoiceSteps_customers]
    rw [hc]
    exact List.mem_cons_self customerId db.customers
  · rfl
  · intro e he
    show caughtOrNull
        (createAutoInvoiceSteps { db with customers := customerId :: db.customers } o
          customerId customer invoiceId itemId).2 = none
    rw [he]
    rfl

/-- Witness for C10: with the item INSERT failing, the route still answers 201,
the customer is stored, and the invoice comes back null. -/
theorem customersPost_auto_invoice_failure_isolated_witness :
    (customersPostRoute ⟨[], [], []⟩ ⟨false, false, false, true⟩ 1 blankCustomer 10 11).2.1
      = 201 ∧
    1 ∈ (customersPostRoute ⟨[], [], []⟩ ⟨false, false, false, true⟩ 1 blankCustomer
        10 11).1.customers ∧
    (customersPostRoute ⟨[], [], []⟩ ⟨false, false, false, true⟩ 1 blankCustomer 10 11).2.2
      = none := by
  have h := customersPost_auto_invoice_failure_isolated ⟨[], [], []⟩
    ⟨false, false, false, true⟩ blankCustomer 1 10 11
  exact ⟨h.1, h.2.1, h.2.2.2 "item insert failed" rfl⟩

end VasifyCrm
